import Mathlib

/-!
Shallow embedding of the anomaly-detection and alerting core of the
health-monitoring-system repository
(`app/services/anomaly_detection.py`, `app/services/alert_service.py`).

Modelling conventions:
* Python floats are modelled as exact rationals (`ℚ`); the statistical
  detector's standard deviation and z-score, which involve a square root,
  are modelled in `ℝ` via `Real.sqrt`.
* Timestamps are rationals measured in hours (`datetime.utcnow()` becomes an
  explicit `now` parameter; 7 days = 168 hours, the dedup window = 1 hour).
* A Python dict of vitals is a `List (String × Option ℚ)` in insertion
  order; the mutable `self.thresholds` dict is an association list
  `List (String × Threshold)` updated in place by `detect_anomalies`.
* Run-time exceptions are modelled with `Except`: points in the code where
  an external operation (database query/add/commit, pandas processing) can
  raise are driven by boolean failure oracles in an environment record, and
  the one place that *always* raises — the reference to `timedelta` in
  `check_and_create_alerts`, a name `alert_service.py` never imports
  (its only datetime import is `from datetime import datetime`) — is
  embedded as an unconditional `NameError`.
* The `:.1f` / `:.2f` decimal formatting inside generated description
  strings is abstracted to `toString` of the exact rational; no claim
  depends on the description text.
-/

/-- Severity enum from `app/models/schemas.py` (`SeverityLevel`). -/
inductive SeverityLevel where
  | INFO
  | WARNING
  | CRITICAL
deriving DecidableEq, Repr

/-- One `{min, max}` entry of the detector's threshold dictionary. -/
structure Threshold where
  min : ℚ
  max : ℚ
deriving DecidableEq, Repr

/-- The threshold dictionary `self.thresholds`: an association list from
metric name to range, in the insertion order of the Python dict. -/
abbrev ThMap := List (String × Threshold)

/-- Dictionary lookup, mirroring Python `self.thresholds[metric]` /
`metric in self.thresholds`. -/
def lookupTh : ThMap → String → Option Threshold
  | [], _ => none
  | p :: rest, m => if p.1 = m then some p.2 else lookupTh rest m

/-- The default thresholds installed by `AnomalyDetector.__init__`. -/
def defaultThresholds : ThMap :=
  [("heart_rate", ⟨50, 120⟩),
   ("spo2", ⟨90, 100⟩),
   ("glucose", ⟨70, 200⟩),
   ("blood_pressure_systolic", ⟨90, 140⟩),
   ("blood_pressure_diastolic", ⟨60, 90⟩),
   ("temperature", ⟨97, 199/2⟩)]

/-- Embeds `AnomalyDetector._determine_severity` (the `metric` argument is unused
in the source and omitted here). -/
def determine_severity (value : ℚ) (t : Threshold) : SeverityLevel :=
  let normal_range := t.max - t.min
  let deviation :=
    if value < t.min then (t.min - value) / normal_range
    else (value - t.max) / normal_range
  if deviation > 1/2 then .CRITICAL
  else if deviation > 1/5 then .WARNING
  else .INFO

/-- Embeds `AnomalyDetector._calculate_confidence` (unused `metric` argument
omitted). -/
def calculate_confidence (value : ℚ) (t : Threshold) : ℚ :=
  let normal_range := t.max - t.min
  let deviation :=
    if value < t.min then (t.min - value) / normal_range
    else (value - t.max) / normal_range
  min (99/100) (1/2 + deviation * (1/2))

/-- Embeds `AnomalyDetector._generate_description` (decimal formatting
abstracted). -/
def generate_description (metric : String) (value : ℚ) (t : Threshold) : String :=
  if value < t.min then
    metric ++ " is " ++ toString (t.min - value) ++ " units below normal range (normal: "
      ++ toString t.min ++ "-" ++ toString t.max ++ ")"
  else
    metric ++ " is " ++ toString (value - t.max) ++ " units above normal range (normal: "
      ++ toString t.min ++ "-" ++ toString t.max ++ ")"

/-- One row of the `recommendations` table in
`AnomalyDetector._generate_recommendation`. -/
def recommendationRow (metric : String) : Option (SeverityLevel → String) :=
  if metric = "heart_rate" then some fun s => match s with
    | .INFO => "Monitor heart rate closely"
    | .WARNING => "Consider immediate medical attention"
    | .CRITICAL => "Seek immediate medical attention"
  else if metric = "spo2" then some fun s => match s with
    | .INFO => "Monitor oxygen saturation"
    | .WARNING => "Check oxygen levels and breathing"
    | .CRITICAL => "Immediate medical attention required - low oxygen"
  else if metric = "glucose" then some fun s => match s with
    | .INFO => "Monitor blood glucose levels"
    | .WARNING => "Check blood sugar and consider medication adjustment"
    | .CRITICAL => "Immediate medical attention required - blood sugar emergency"
  else if metric = "blood_pressure_systolic" then some fun s => match s with
    | .INFO => "Monitor blood pressure"
    | .WARNING => "Consider blood pressure medication review"
    | .CRITICAL => "Immediate medical attention required - blood pressure emergency"
  else if metric = "blood_pressure_diastolic" then some fun s => match s with
    | .INFO => "Monitor blood pressure"
    | .WARNING => "Consider blood pressure medication review"
    | .CRITICAL => "Immediate medical attention required - blood pressure emergency"
  else if metric = "temperature" then some fun s => match s with
    | .INFO => "Monitor body temperature"
    | .WARNING => "Check for fever or hypothermia"
    | .CRITICAL => "Immediate medical attention required - temperature emergency"
  else none

/-- Embeds `AnomalyDetector._generate_recommendation`: table lookup with the
generic fallback message. -/
def generate_recommendation (metric : String) (severity : SeverityLevel) : String :=
  match recommendationRow metric with
  | some row => row severity
  | none => "Monitor closely and consult healthcare provider"

/-- The anomaly dict built by both detectors (`anomaly_type`,
`confidence_score`, `severity`, `description`, `recommendation`).
Confidence is `ℝ` because the statistical detector's confidence involves a
square root. -/
structure AnomalyData where
  anomaly_type : String
  confidence_score : ℝ
  severity : SeverityLevel
  description : String
  recommendation : String

/-- The candidate anomaly `detect_threshold_anomalies` appends for one
out-of-range metric. -/
noncomputable def mkThresholdAnomaly (metric : String) (value : ℚ) (t : Threshold) :
    AnomalyData :=
  { anomaly_type := metric
    confidence_score := ((calculate_confidence value t : ℚ) : ℝ)
    severity := determine_severity value t
    description := generate_description metric value t
    recommendation := generate_recommendation metric (determine_severity value t) }

/-- Embeds `AnomalyDetector.detect_threshold_anomalies`: iterate the sample's
metric/value pairs, skip `None` values and metrics absent from the
threshold dict, and append one anomaly per threshold violation. -/
noncomputable def detect_threshold_anomalies (ths : ThMap)
    (vitals : List (String × Option ℚ)) : List AnomalyData :=
  vitals.foldl
    (fun acc mv =>
      match mv.2, lookupTh ths mv.1 with
      | some v, some t =>
        if v < t.min ∨ v > t.max then acc ++ [mkThresholdAnomaly mv.1 v t] else acc
      | _, _ => acc)
    []

/-- The per-pair candidate function underlying the threshold loop. -/
noncomputable def thresholdCandidate (ths : ThMap) (mv : String × Option ℚ) :
    Option AnomalyData :=
  match mv.2, lookupTh ths mv.1 with
  | some v, some t =>
    if v < t.min ∨ v > t.max then some (mkThresholdAnomaly mv.1 v t) else none
  | _, _ => none

theorem foldl_toList_append {α β : Type} (f : α → Option β) :
    ∀ (l : List α) (acc : List β),
      l.foldl (fun acc x => acc ++ (f x).toList) acc = acc ++ l.filterMap f := by
  intro l
  induction l with
  | nil => intro acc; simp
  | cons x xs ih =>
    intro acc
    simp only [List.foldl_cons, List.filterMap_cons]
    cases h : f x with
    | none => simp [h, ih]
    | some b => simp [h, ih]

theorem detect_threshold_anomalies_eq_filterMap (ths : ThMap)
    (vitals : List (String × Option ℚ)) :
    detect_threshold_anomalies ths vitals = vitals.filterMap (thresholdCandidate ths) := by
  have hbody : ∀ (acc : List AnomalyData) (mv : String × Option ℚ),
      (match mv.2, lookupTh ths mv.1 with
        | some v, some t =>
          if v < t.min ∨ v > t.max then acc ++ [mkThresholdAnomaly mv.1 v t] else acc
        | _, _ => acc) = acc ++ (thresholdCandidate ths mv).toList := by
    intro acc mv
    unfold thresholdCandidate
    cases hv : mv.2 with
    | none => simp
    | some v =>
      cases ht : lookupTh ths mv.1 with
      | none => simp
      | some t =>
        by_cases hout : v < t.min ∨ v > t.max
        · simp [hout]
        · simp [hout]
  unfold detect_threshold_anomalies
  calc vitals.foldl
        (fun acc mv =>
          match mv.2, lookupTh ths mv.1 with
          | some v, some t =>
            if v < t.min ∨ v > t.max then acc ++ [mkThresholdAnomaly mv.1 v t] else acc
          | _, _ => acc) []
      = vitals.foldl (fun acc mv => acc ++ (thresholdCandidate ths mv).toList) [] := by
        congr 1
        funext acc mv
        exact hbody acc mv
    _ = [] ++ vitals.filterMap (thresholdCandidate ths) := foldl_toList_append _ vitals []
    _ = vitals.filterMap (thresholdCandidate ths) := by simp

/-- C4: For every sample and effective threshold map,
`detect_threshold_anomalies` emits exactly one candidate anomaly per present
metric whose value lies outside `[min, max]` — in sample order, its
confidence computed from the deviation fraction
`d = (min - value)/(max - min)` when `value < min` and
`d = (value - max)/(max - min)` when `value > max` — while a metric whose
value is absent (`None`) or that has no entry in the threshold map yields no
anomaly (and the function is total, so no error). -/
theorem detect_threshold_anomalies_per_metric (ths : ThMap)
    (vitals : List (String × Option ℚ)) :
    detect_threshold_anomalies ths vitals =
      vitals.filterMap (fun mv =>
        match mv.2, lookupTh ths mv.1 with
        | some v, some t =>
          if v < t.min ∨ v > t.max then
            some { anomaly_type := mv.1
                   confidence_score :=
                     ((min (99/100)
                        (1/2 + (if v < t.min then (t.min - v) / (t.max - t.min)
                                else (v - t.max) / (t.max - t.min)) * (1/2)) : ℚ) : ℝ)
                   severity := determine_severity v t
                   description := generate_description mv.1 v t
                   recommendation := generate_recommendation mv.1 (determine_severity v t) }
          else none
        | _, _ => none) := by
  rw [detect_threshold_anomalies_eq_filterMap]
  apply List.filterMap_congr
  intro mv _
  unfold thresholdCandidate mkThresholdAnomaly calculate_confidence
  cases mv.2 with
  | none => rfl
  | some v =>
    cases lookupTh ths mv.1 with
    | none => rfl
    | some t => rfl

/-- The deviation fraction `d` as the spec's §4.1/§4.3 word it (spec-side
definition, to be compared against the source's inlined computation). -/
def spec_deviation_fraction (v : ℚ) (t : Threshold) : ℚ :=
  if v < t.min then (t.min - v) / (t.max - t.min)
  else (v - t.max) / (t.max - t.min)

theorem determine_severity_eq (v : ℚ) (t : Threshold) :
    determine_severity v t =
      if spec_deviation_fraction v t > 1/2 then .CRITICAL
      else if spec_deviation_fraction v t > 1/5 then .WARNING
      else .INFO := rfl

theorem calculate_confidence_eq (v : ℚ) (t : Threshold) :
    calculate_confidence v t =
      min (99/100) (1/2 + spec_deviation_fraction v t * (1/2)) := rfl

theorem spec_deviation_fraction_ex : spec_deviation_fraction 180 ⟨50, 120⟩ = 6/7 := by
  norm_num [spec_deviation_fraction]

/-- C5: severity of a threshold anomaly is CRITICAL iff the deviation
fraction `d` exceeds 0.5, WARNING iff `0.2 < d ≤ 0.5`, INFO otherwise, and
the confidence equals `min(0.99, 0.5 + d·0.5)`; for `heart_rate = 180`
under the default 50–120 range, `d = 60/70 = 6/7 ≈ 0.857`, the severity is
CRITICAL and the confidence is `13/14 ≈ 0.929`. -/
theorem threshold_severity_confidence_spec :
    (∀ (v : ℚ) (t : Threshold),
      (determine_severity v t = .CRITICAL ↔ spec_deviation_fraction v t > 1/2) ∧
      (determine_severity v t = .WARNING ↔
        1/5 < spec_deviation_fraction v t ∧ spec_deviation_fraction v t ≤ 1/2) ∧
      (determine_severity v t = .INFO ↔ spec_deviation_fraction v t ≤ 1/5) ∧
      calculate_confidence v t = min (99/100) (1/2 + spec_deviation_fraction v t * (1/2))) ∧
    spec_deviation_fraction 180 ⟨50, 120⟩ = 6/7 ∧
    determine_severity 180 ⟨50, 120⟩ = .CRITICAL ∧
    calculate_confidence 180 ⟨50, 120⟩ = 13/14 := by
  have hgen : ∀ (v : ℚ) (t : Threshold),
      (determine_severity v t = .CRITICAL ↔ spec_deviation_fraction v t > 1/2) ∧
      (determine_severity v t = .WARNING ↔
        1/5 < spec_deviation_fraction v t ∧ spec_deviation_fraction v t ≤ 1/2) ∧
      (determine_severity v t = .INFO ↔ spec_deviation_fraction v t ≤ 1/5) ∧
      calculate_confidence v t = min (99/100) (1/2 + spec_deviation_fraction v t * (1/2)) := by
    intro v t
    rw [determine_severity_eq, calculate_confidence_eq]
    set d := spec_deviation_fraction v t with hd
    by_cases h1 : d > 1/2
    · rw [if_pos h1]
      exact ⟨iff_of_true rfl h1,
             iff_of_false (by decide) (fun h => absurd h1 (not_lt.mpr h.2)),
             iff_of_false (by decide)
               (fun h => absurd h1 (not_lt.mpr (le_trans h (by norm_num)))),
             rfl⟩
    · rw [if_neg h1]
      by_cases h2 : d > 1/5
      · rw [if_pos h2]
        exact ⟨iff_of_false (by decide) h1,
               iff_of_true rfl ⟨h2, not_lt.mp h1⟩,
               iff_of_false (by decide) (fun h => absurd h2 (not_lt.mpr h)),
               rfl⟩
      · rw [if_neg h2]
        exact ⟨iff_of_false (by decide) h1,
               iff_of_false (by decide) (fun h => h2 h.1),
               iff_of_true rfl (not_lt.mp h2),
               rfl⟩
  refine ⟨hgen, spec_deviation_fraction_ex, ?_, ?_⟩
  · exact (hgen 180 ⟨50, 120⟩).1.mpr (by rw [spec_deviation_fraction_ex]; norm_num)
  · rw [(hgen 180 ⟨50, 120⟩).2.2.2, spec_deviation_fraction_ex]
    rw [show (1:ℚ)/2 + 6/7 * (1/2) = 13/14 by norm_num]
    exact min_eq_right (by norm_num)

/-! ### Database rows and the statistical detector -/

/-- Row of the `patients` table (fields the alert path reads). -/
structure PatientRec where
  patient_id : String
  name : String
  age : ℕ
  gender : String
deriving DecidableEq, Repr

/-- Row of the `vital_signs` table (the six metric columns the statistical
detector loads into its DataFrame, plus key and timestamp). -/
structure VitalRec where
  patient_id : String
  timestamp : ℚ
  heart_rate : Option ℚ
  spo2 : Option ℚ
  glucose : Option ℚ
  blood_pressure_systolic : Option ℚ
  blood_pressure_diastolic : Option ℚ
  temperature : Option ℚ
deriving DecidableEq, Repr

/-- Row of the `alert_configurations` table. -/
structure ConfigRec where
  patient_id : String
  metric_name : String
  min_threshold : Option ℚ
  max_threshold : Option ℚ
  is_active : Bool
  notification_email : Option String
deriving DecidableEq, Repr

/-- Row of the `anomalies` table as built by `detect_anomalies`. -/
structure AnomalyRec where
  patient_id : String
  timestamp : ℚ
  anomaly_type : String
  confidence_score : ℝ
  severity : SeverityLevel
  description : String
  recommendation : String

/-- Row of the `alerts` table as built by `check_and_create_alerts`. -/
structure AlertRec where
  patient_id : String
  alert_type : String
  severity : SeverityLevel
  message : String
  timestamp : ℚ
  is_sent : Bool
deriving DecidableEq, Repr

/-- The committed database state visible to the two services.  SQLAlchemy's
pending (uncommitted) adds are modelled implicitly: within each call, rows
are accumulated in a local list and appended to the committed state only by
`commit`, so `rollback` is the identity on this record. -/
structure DB where
  patients : List PatientRec
  vital_signs : List VitalRec
  anomalies : List AnomalyRec
  alerts : List AlertRec
  configs : List ConfigRec

/-- The six DataFrame columns of `detect_statistical_anomalies`. -/
def metricColumns : List String :=
  ["heart_rate", "spo2", "glucose", "blood_pressure_systolic",
   "blood_pressure_diastolic", "temperature"]

/-- Column access `df[metric]` for one historical row. -/
def VitalRec.get (r : VitalRec) (m : String) : Option ℚ :=
  if m = "heart_rate" then r.heart_rate
  else if m = "spo2" then r.spo2
  else if m = "glucose" then r.glucose
  else if m = "blood_pressure_systolic" then r.blood_pressure_systolic
  else if m = "blood_pressure_diastolic" then r.blood_pressure_diastolic
  else if m = "temperature" then r.temperature
  else none

/-- The historical query of `detect_statistical_anomalies`: the patient's
vital signs with `start_time ≤ timestamp ≤ end_time`, where `end_time` is
the evaluation instant and `start_time` is 7 days (168 hours) earlier. -/
def historyWindow (now : ℚ) (pid : String) (db : DB) : List VitalRec :=
  db.vital_signs.filter fun r =>
    r.patient_id == pid && decide (now - 168 ≤ r.timestamp) && decide (r.timestamp ≤ now)

/-- Embeds `pandas.Series.mean` of the non-null values. -/
def sampleMean (xs : List ℚ) : ℚ := xs.sum / (xs.length : ℚ)

/-- Embeds `pandas.Series.std` squared: the sample variance with `ddof = 1`
(`pandas` default), kept in `ℚ`; the standard deviation itself is
`Real.sqrt` of this. -/
def sampleVar (xs : List ℚ) : ℚ :=
  (xs.map fun x => (x - sampleMean xs) * (x - sampleMean xs)).sum / ((xs.length : ℚ) - 1)

/-- Embeds `AnomalyDetector._determine_statistical_severity`. -/
noncomputable def determine_statistical_severity (z : ℝ) : SeverityLevel :=
  if z > 3 then .CRITICAL
  else if z > 5/2 then .WARNING
  else .INFO

/-- The per-metric body of the statistical loop: drop rows with null values,
require at least 5 data points, skip when the standard deviation is zero,
and emit an anomaly when the z-score exceeds 2.5.  The `Z-score: …,
Current: …, Mean: …` numeric interpolation of the description string is
abstracted away. -/
noncomputable def statForMetric (data : List ℚ) (metric : String) (v : ℚ) :
    Option AnomalyData :=
  if data.length < 5 then none
  else
    let mean := sampleMean data
    let std : ℝ := Real.sqrt ((sampleVar data : ℚ) : ℝ)
    if std = 0 then none
    else
      let z : ℝ := |((v - mean : ℚ) : ℝ) / std|
      if z > 5/2 then
        some { anomaly_type := metric ++ "_statistical"
               confidence_score := min (99/100) (z / 3)
               severity := determine_statistical_severity z
               description := "Statistical anomaly detected in " ++ metric
               recommendation :=
                 generate_recommendation metric (determine_statistical_severity z) }
      else none

/-- One iteration of the metric loop in `detect_statistical_anomalies`:
skip null current values and metrics outside the DataFrame columns. -/
noncomputable def statCandidate (hist : List VitalRec) (mv : String × Option ℚ) :
    Option AnomalyData :=
  match mv.2 with
  | none => none
  | some v =>
    if metricColumns.contains mv.1 then
      statForMetric (hist.filterMap fun r => r.get mv.1) mv.1 v
    else none

/-- Embeds `AnomalyDetector.detect_statistical_anomalies`. -/
noncomputable def detect_statistical_anomalies (now : ℚ) (pid : String)
    (vitals : List (String × Option ℚ)) (db : DB) : List AnomalyData :=
  if (historyWindow now pid db).length < 10 then []
  else vitals.filterMap (statCandidate (historyWindow now pid db))

/-- C6: with fewer than 10 historical readings in the trailing 7-day window
the statistical detector returns no anomalies at all; otherwise, per present
metric it skips when fewer than 5 non-missing historical values exist or
when the historical standard deviation is exactly zero, and emits one
candidate anomaly labelled `metric ++ "_statistical"` iff `z > 2.5`, with
confidence `min(0.99, z/3)`. -/
theorem detect_statistical_anomalies_spec (now : ℚ) (pid : String)
    (vitals : List (String × Option ℚ)) (db : DB) :
    ((historyWindow now pid db).length < 10 →
      detect_statistical_anomalies now pid vitals db = []) ∧
    (10 ≤ (historyWindow now pid db).length →
      detect_statistical_anomalies now pid vitals db =
        vitals.filterMap (fun mv =>
          match mv.2 with
          | none => none
          | some v =>
            if metricColumns.contains mv.1 then
              let data := (historyWindow now pid db).filterMap fun r => r.get mv.1
              if data.length < 5 then none
              else if Real.sqrt ((sampleVar data : ℚ) : ℝ) = 0 then none
              else
                let z : ℝ :=
                  |((v - sampleMean data : ℚ) : ℝ) / Real.sqrt ((sampleVar data : ℚ) : ℝ)|
                if z > 5/2 then
                  some { anomaly_type := mv.1 ++ "_statistical"
                         confidence_score := min (99/100) (z / 3)
                         severity := determine_statistical_severity z
                         description := "Statistical anomaly detected in " ++ mv.1
                         recommendation :=
                           generate_recommendation mv.1 (determine_statistical_severity z) }
                else none
            else none)) := by
  constructor
  · intro h
    unfold detect_statistical_anomalies
    rw [if_pos h]
  · intro h
    unfold detect_statistical_anomalies
    rw [if_neg (not_lt.mpr h)]
    apply List.filterMap_congr
    intro mv _
    unfold statCandidate statForMetric
    rfl

/-- Concrete inputs exercising both branches of the C6 theorem. -/
def emptyDB : DB := ⟨[], [], [], [], []⟩

/-- A historical reading for the statistical examples. -/
def mkHR (pid : String) (ts hr : ℚ) : VitalRec :=
  ⟨pid, ts, some hr, none, none, none, none, none⟩

/-- Ten identical historical readings (length ≥ 10, zero variance). -/
def tenHistDB : DB :=
  ⟨[], [mkHR "P" 1 75, mkHR "P" 2 75, mkHR "P" 3 75, mkHR "P" 4 75, mkHR "P" 5 75,
        mkHR "P" 6 75, mkHR "P" 7 75, mkHR "P" 8 75, mkHR "P" 9 75, mkHR "P" 10 75],
   [], [], []⟩

theorem detect_statistical_anomalies_spec_witness :
    ((historyWindow 168 "P" emptyDB).length < 10 ∧
      detect_statistical_anomalies 168 "P" [("heart_rate", some 999)] emptyDB = []) ∧
    (10 ≤ (historyWindow 168 "P" tenHistDB).length ∧
      detect_statistical_anomalies 168 "P" [] tenHistDB = []) :=
  ⟨⟨by decide,
    (detect_statistical_anomalies_spec 168 "P" [("heart_rate", some 999)] emptyDB).1
      (by decide)⟩,
   ⟨by norm_num [historyWindow, tenHistDB, mkHR],
    ((detect_statistical_anomalies_spec 168 "P" [] tenHistDB).2
        (by norm_num [historyWindow, tenHistDB, mkHR])).trans
      (List.filterMap_nil _)⟩⟩

/-- C7 counterexample: the statistical severity classifier maps a z-score of
exactly 2.5 to INFO (the final `else` branch), not to WARNING as the claim
states. -/
theorem statistical_severity_at_boundary_is_info :
    determine_statistical_severity (5/2 : ℝ) = SeverityLevel.INFO ∧
    SeverityLevel.INFO ≠ SeverityLevel.WARNING := by
  constructor
  · unfold determine_statistical_severity
    rw [if_neg (by norm_num), if_neg (by norm_num)]
  · decide

/-- Eleven historical heart-rate readings with mean 75 and sample standard
deviation exactly 10 (five 85s, five 65s, one 75; sum 825, Σ(x−75)² = 1000,
variance 1000/10 = 100). -/
def statHist : List VitalRec :=
  [mkHR "P7" 1 85, mkHR "P7" 2 85, mkHR "P7" 3 85, mkHR "P7" 4 85, mkHR "P7" 5 85,
   mkHR "P7" 6 65, mkHR "P7" 7 65, mkHR "P7" 8 65, mkHR "P7" 9 65, mkHR "P7" 10 65,
   mkHR "P7" 11 75]

def statDB : DB := ⟨[], statHist, [], [], []⟩

def statVals : List ℚ := [85, 85, 85, 85, 85, 65, 65, 65, 65, 65, 75]

theorem statHist_window : historyWindow 168 "P7" statDB = statHist := by
  norm_num [historyWindow, statDB, statHist, mkHR]

theorem statHist_data :
    statHist.filterMap (fun r => r.get "heart_rate") = statVals := by
  simp [statHist, statVals, mkHR, VitalRec.get]

theorem statVals_mean : sampleMean statVals = 75 := by
  norm_num [sampleMean, statVals]

theorem statVals_var : sampleVar statVals = 100 := by
  norm_num [sampleVar, sampleMean, statVals]

theorem statVals_std : Real.sqrt ((sampleVar statVals : ℚ) : ℝ) = 10 := by
  rw [statVals_var]
  rw [show ((100 : ℚ) : ℝ) = 10 ^ 2 by norm_num]
  exact Real.sqrt_sq (by norm_num)

theorem stat_candidate_eval :
    statCandidate statHist ("heart_rate", some 110) =
      some { anomaly_type := "heart_rate_statistical"
             confidence_score := (99/100 : ℝ)
             severity := .CRITICAL
             description := "Statistical anomaly detected in heart_rate"
             recommendation := "Seek immediate medical attention" } := by
  have hz : |((110 - sampleMean statVals : ℚ) : ℝ) /
      Real.sqrt ((sampleVar statVals : ℚ) : ℝ)| = 7/2 := by
    rw [statVals_std, statVals_mean]
    rw [show ((110 - (75:ℚ) : ℚ) : ℝ) = 35 by norm_num]
    rw [abs_of_nonneg (by norm_num)]
    norm_num
  unfold statCandidate
  rw [show (("heart_rate", some (110:ℚ)) : String × Option ℚ).2 = some 110 from rfl]
  simp only []
  rw [if_pos (by decide : metricColumns.contains "heart_rate" = true)]
  rw [statHist_data]
  unfold statForMetric
  rw [if_neg (by decide : ¬ statVals.length < 5)]
  simp only []
  rw [if_neg (by rw [statVals_std]; norm_num :
        ¬ Real.sqrt ((sampleVar statVals : ℚ) : ℝ) = 0)]
  rw [if_pos (by rw [hz]; norm_num :
        |((110 - sampleMean statVals : ℚ) : ℝ) /
          Real.sqrt ((sampleVar statVals : ℚ) : ℝ)| > 5/2)]
  have hsev : determine_statistical_severity
      (|((110 - sampleMean statVals : ℚ) : ℝ) /
        Real.sqrt ((sampleVar statVals : ℚ) : ℝ)|) = .CRITICAL := by
    rw [hz]
    unfold determine_statistical_severity
    rw [if_pos (by norm_num)]
  have hconf : min ((99:ℝ)/100)
      (|((110 - sampleMean statVals : ℚ) : ℝ) /
        Real.sqrt ((sampleVar statVals : ℚ) : ℝ)| / 3) = 99/100 := by
    rw [hz]
    exact min_eq_left (by norm_num)
  rw [hsev, hconf]
  rfl

/-- C7 amended: the statistical severity classifier maps `z > 3.0` to
CRITICAL and `2.5 < z ≤ 3.0` to WARNING, but a z-score of exactly 2.5 falls
into the `z ≤ 2.5` branch and yields INFO (that value is unreachable from
the detector, which filters at `z > 2.5`); for a history with mean 75 and
sample standard deviation 10 and a current value of 110 (z = 3.5), the
emitted anomaly is CRITICAL with confidence capped at 0.99. -/
theorem statistical_severity_spec :
    (∀ z : ℝ,
      (determine_statistical_severity z = .CRITICAL ↔ z > 3) ∧
      (determine_statistical_severity z = .WARNING ↔ 5/2 < z ∧ z ≤ 3) ∧
      (determine_statistical_severity z = .INFO ↔ z ≤ 5/2)) ∧
    determine_statistical_severity (5/2 : ℝ) = .INFO ∧
    (detect_statistical_anomalies 168 "P7" [("heart_rate", some 110)] statDB).map
        (fun a => (a.anomaly_type, a.severity, a.confidence_score)) =
      [("heart_rate_statistical", SeverityLevel.CRITICAL, (99/100 : ℝ))] := by
  refine ⟨?_, ?_, ?_⟩
  · intro z
    unfold determine_statistical_severity
    by_cases h1 : z > 3
    · rw [if_pos h1]
      exact ⟨iff_of_true rfl h1,
             iff_of_false (by decide) (fun h => absurd h1 (not_lt.mpr h.2)),
             iff_of_false (by decide)
               (fun h => absurd h1 (not_lt.mpr (le_trans h (by norm_num)))),⟩
    · rw [if_neg h1]
      by_cases h2 : z > 5/2
      · rw [if_pos h2]
        exact ⟨iff_of_false (by decide) h1,
               iff_of_true rfl ⟨h2, not_lt.mp h1⟩,
               iff_of_false (by decide) (fun h => absurd h2 (not_lt.mpr h))⟩
      · rw [if_neg h2]
        exact ⟨iff_of_false (by decide) h1,
               iff_of_false (by decide) (fun h => h2 h.1),
               iff_of_true rfl (not_lt.mp h2)⟩
  · unfold determine_statistical_severity
    rw [if_neg (by norm_num), if_neg (by norm_num)]
  · unfold detect_statistical_anomalies
    rw [statHist_window]
    rw [if_neg (by decide : ¬ statHist.length < 10)]
    simp only [List.filterMap_cons, List.filterMap_nil, stat_candidate_eval,
      List.map_cons, List.map_nil]

/-! ### The aggregator `detect_anomalies`, its global mutable state,
and the alert service -/

/-- Failure oracle for the run-time exceptions `detect_anomalies` can meet:
the `AlertConfiguration` query, the statistical stage (history query /
pandas processing of malformed data), each `db.add(anomaly)` (indexed by
position), and the final `db.commit()`. -/
structure DetectEnv where
  configQueryFails : Bool
  statFails : Bool
  addFails : Nat → Bool
  commitFails : Bool

/-- A run in which no external operation raises. -/
def okEnv : DetectEnv := ⟨false, false, fun _ => false, false⟩

/-- A run in which only the `i`-th `db.add` raises. -/
def addFailEnv (i : Nat) : DetectEnv := ⟨false, false, fun j => j == i, false⟩

/-- A run in which the statistical stage raises (e.g. malformed historical
data). -/
def statFailEnv : DetectEnv := ⟨false, true, fun _ => false, false⟩

/-- The Python exceptions the embedding distinguishes. -/
inductive PyErr where
  | nameError
  | dbError
  | detectorError
deriving DecidableEq, Repr

def isErr {ε α : Type} : Except ε α → Bool
  | .error _ => true
  | .ok _ => false

/-- In-place overwrite of one entry's `min` (Python
`thresholds[m]["min"] = x`). -/
def setMin (ths : ThMap) (m : String) (x : ℚ) : ThMap :=
  ths.map fun p => if p.1 = m then (p.1, { p.2 with min := x }) else p

/-- In-place overwrite of one entry's `max`. -/
def setMax (ths : ThMap) (m : String) (x : ℚ) : ThMap :=
  ths.map fun p => if p.1 = m then (p.1, { p.2 with max := x }) else p

/-- The override loop body of `detect_anomalies`: if the config's metric is
a key of the (current, possibly already mutated) threshold dict, overwrite
its min and/or max in place; `None` thresholds leave that side alone. -/
def applyOverride (ths : ThMap) (c : ConfigRec) : ThMap :=
  match lookupTh ths c.metric_name with
  | none => ths
  | some _ =>
    let ths1 := match c.min_threshold with
      | some x => setMin ths c.metric_name x
      | none => ths
    match c.max_threshold with
    | some x => setMax ths1 c.metric_name x
    | none => ths1

/-- Embeds `Anomaly(patient_id=…, timestamp=datetime.utcnow(), **anomaly_data)`. -/
noncomputable def mkAnomalyRec (pid : String) (now : ℚ) (a : AnomalyData) : AnomalyRec :=
  ⟨pid, now, a.anomaly_type, a.confidence_score, a.severity, a.description,
   a.recommendation⟩

/-- The `try` body of `detect_anomalies`, threading the *global*
`anomaly_detector.thresholds` outside the `Except` because the in-place
mutation survives any later exception.  Committed rows only become visible
at `db.commit()`; an error leaves the committed state untouched. -/
noncomputable def detect_anomalies_body (env : DetectEnv) (now : ℚ) (pid : String)
    (vitals : List (String × Option ℚ)) (ths : ThMap) (db : DB) :
    ThMap × Except PyErr (DB × List AnomalyRec) :=
  if env.configQueryFails then (ths, .error .dbError)
  else
    let custom_configs := db.configs.filter fun c => c.patient_id == pid && c.is_active
    let ths1 := custom_configs.foldl applyOverride ths
    let threshold_anomalies := detect_threshold_anomalies ths1 vitals
    if env.statFails then (ths1, .error .detectorError)
    else
      let statistical_anomalies := detect_statistical_anomalies now pid vitals db
      let all_anomalies := threshold_anomalies ++ statistical_anomalies
      let anomalies := all_anomalies.map (mkAnomalyRec pid now)
      if (List.range anomalies.length).any env.addFails then (ths1, .error .dbError)
      else if anomalies.isEmpty then (ths1, .ok (db, anomalies))
      else if env.commitFails then (ths1, .error .dbError)
      else (ths1, .ok ({ db with anomalies := db.anomalies ++ anomalies }, anomalies))

/-- The global process state the services run against: the singleton
detector's threshold dict plus the committed database. -/
structure Global where
  ths : ThMap
  db : DB

/-- Embeds `detect_anomalies` with its `except` clause: any internal exception is
logged, the session rolled back (committed rows untouched, pending adds
discarded) and `[]` returned; the threshold-dict mutation is *not* undone. -/
noncomputable def detect_anomalies (env : DetectEnv) (now : ℚ) (pid : String)
    (vitals : List (String × Option ℚ)) (g : Global) : Global × List AnomalyRec :=
  match detect_anomalies_body env now pid vitals g.ths g.db with
  | (ths1, .ok (db1, anomalies)) => (⟨ths1, db1⟩, anomalies)
  | (ths1, .error _) => (⟨ths1, g.db⟩, [])

/-- Embeds `AlertService._generate_alert_message` (`if anomaly.recommendation:`
is Python truthiness: the empty string is falsy). -/
def generate_alert_message (a : AnomalyRec) : String :=
  let severity_text : String := match a.severity with
    | .INFO => "Information"
    | .WARNING => "Warning"
    | .CRITICAL => "Critical Alert"
  let message := severity_text ++ ": " ++ a.description
  if a.recommendation ≠ "" then message ++ " Recommendation: " ++ a.recommendation
  else message

/-- The `for anomaly in anomalies` loop of `check_and_create_alerts`.  For a
WARNING or CRITICAL anomaly the source next evaluates
`datetime.utcnow() - timedelta(hours=1)` for the dedup query — but
`alert_service.py` imports only `datetime` from the `datetime` module
(`from datetime import datetime`), so the name `timedelta` is unbound in
that scope and the expression raises `NameError`; the dedup lookup, the
`Alert(...)` construction (whose message would be
`generate_alert_message anomaly`) and everything below are unreachable.
INFO anomalies are skipped by the severity test before that point. -/
def checkLoop : List AnomalyRec → Except PyErr (List AlertRec)
  | [] => .ok []
  | a :: rest =>
    if a.severity = .WARNING ∨ a.severity = .CRITICAL then .error .nameError
    else checkLoop rest

/-- Embeds `AlertService.check_and_create_alerts`: returns the database state, the
returned alert list, and the alerts forwarded to `send_alert_notification`
(the notification loop runs only after a successful non-empty commit).
The `except` branch logs, rolls back and returns `[]`. -/
def check_and_create_alerts (now : ℚ) (pid : String) (anomalies : List AnomalyRec)
    (db : DB) : DB × List AlertRec × List AlertRec :=
  match checkLoop anomalies with
  | .ok alerts =>
    if alerts.isEmpty then (db, alerts, [])
    else ({ db with alerts := db.alerts ++ alerts }, alerts, alerts)
  | .error _ => (db, [], [])

/-- Failure oracle for the notification path: an exception inside
`_send_console_notification`, and an exception inside the `try` of
`_send_email_notification`. -/
structure NotifyEnv where
  consoleRaises : Bool
  emailRaises : Bool

/-- Embeds `AlertService._send_email_notification`: look up the patient, then the
alert configuration's `notification_email` (Python `if not
notification_email:` treats both `None` and `""` as falsy); only when the
demo email is actually emitted is `alert.is_sent` set.  Any exception in
the `try` is caught and logged, leaving the alert untouched. -/
def send_email_notification (db : DB) (env : NotifyEnv) (alert : AlertRec) : AlertRec :=
  if env.emailRaises then alert
  else
    match db.patients.find? (fun p => p.patient_id == alert.patient_id) with
    | none => alert
    | some _ =>
      let config := db.configs.find? fun c =>
        c.patient_id == alert.patient_id && c.metric_name == alert.alert_type
      let notification_email := match config with
        | some c => c.notification_email
        | none => none
      match notification_email with
      | none => alert
      | some e =>
        if e = "" then alert
        else { alert with is_sent := true }

/-- Embeds `AlertService.send_alert_notification`: console notification (may
raise), then email notification (never raises); any exception is caught and
`False` returned, otherwise `True`.  The alerts table is never touched. -/
def send_alert_notification (db : DB) (env : NotifyEnv) (alert : AlertRec) :
    Bool × AlertRec :=
  if env.consoleRaises then (false, alert)
  else (true, send_email_notification db env alert)

/-- Modelled from the spec: "`sent` is set once NotificationDispatcher
confirms delivery" — delivery is confirmed when the console step succeeded,
the email path raised no exception, the patient row exists and a non-empty
notification email is configured. -/
def deliveryConfirmed (db : DB) (env : NotifyEnv) (alert : AlertRec) : Bool :=
  !env.consoleRaises && !env.emailRaises &&
  (db.patients.find? (fun p => p.patient_id == alert.patient_id)).isSome &&
  (match db.configs.find? (fun c =>
      c.patient_id == alert.patient_id && c.metric_name == alert.alert_type) with
   | some c => match c.notification_email with
     | some e => !(e == "")
     | none => false
   | none => false)

theorem checkLoop_cases (l : List AnomalyRec) :
    checkLoop l = .ok [] ∨ checkLoop l = .error .nameError := by
  induction l with
  | nil => exact Or.inl rfl
  | cons a rest ih =>
    unfold checkLoop
    by_cases h : a.severity = .WARNING ∨ a.severity = .CRITICAL
    · rw [if_pos h]; exact Or.inr rfl
    · rw [if_neg h]; exact ih

/-- C1 (code bug): `check_and_create_alerts` can never create an alert.  For
any qualifying (WARNING/CRITICAL) anomaly the loop evaluates `timedelta`, a
name `alert_service.py` never imports, raising `NameError`; the blanket
`except` rolls back and returns `[]`.  Without a qualifying anomaly the loop
completes with an empty alerts list.  Either way no `AlertRecord` exists,
no notification is dispatched and the database is unchanged — contradicting
the claim that a qualifying anomaly outside the dedup window produces an
alert. -/
theorem check_and_create_alerts_never_creates_alerts (now : ℚ) (pid : String)
    (anomalies : List AnomalyRec) (db : DB) :
    check_and_create_alerts now pid anomalies db = (db, [], []) := by
  unfold check_and_create_alerts
  rcases checkLoop_cases anomalies with h | h <;> rw [h] <;> rfl

/-- C10: neither `detect_anomalies` nor `check_and_create_alerts`
propagates an exception (both are total catch-all wrappers around their
`Except`-valued bodies); whenever the body raises, the wrapper leaves the
committed database unchanged (the rollback discards only pending rows) and
returns the empty list. -/
theorem pipeline_catches_all_errors :
    (∀ (env : DetectEnv) (now : ℚ) (pid : String)
        (vitals : List (String × Option ℚ)) (g : Global),
      isErr (detect_anomalies_body env now pid vitals g.ths g.db).2 = true →
        (detect_anomalies env now pid vitals g).1.db = g.db ∧
        (detect_anomalies env now pid vitals g).2 = []) ∧
    (∀ (now : ℚ) (pid : String) (anomalies : List AnomalyRec) (db : DB),
      isErr (checkLoop anomalies) = true →
        check_and_create_alerts now pid anomalies db = (db, [], [])) := by
  constructor
  · intro env now pid vitals g h
    unfold detect_anomalies
    rcases hb : detect_anomalies_body env now pid vitals g.ths g.db with ⟨ths1, r⟩
    cases r with
    | ok v => rw [hb] at h; simp [isErr] at h
    | error e => exact ⟨rfl, rfl⟩
  · intro now pid anomalies db h
    unfold check_and_create_alerts
    cases hc : checkLoop anomalies with
    | ok v => rw [hc] at h; simp [isErr] at h
    | error e => rfl

/-- The anomaly list in the C10 witness: one CRITICAL anomaly. -/
noncomputable def critAnomaly : AnomalyRec :=
  ⟨"P", 168, "heart_rate", ((6:ℚ) : ℝ) / 7, .CRITICAL, "d", "r"⟩

/-- Pristine global state: default thresholds over an empty database. -/
def baseGlobal : Global := ⟨defaultThresholds, emptyDB⟩

theorem pipeline_catches_all_errors_witness :
    (isErr (detect_anomalies_body statFailEnv 168 "P" [] baseGlobal.ths
        baseGlobal.db).2 = true ∧
      (detect_anomalies statFailEnv 168 "P" [] baseGlobal).1.db = emptyDB ∧
      (detect_anomalies statFailEnv 168 "P" [] baseGlobal).2 = []) ∧
    (isErr (checkLoop [critAnomaly]) = true ∧
      check_and_create_alerts 168 "P" [critAnomaly] emptyDB = (emptyDB, [], [])) := by
  have h1 : isErr (detect_anomalies_body statFailEnv 168 "P" [] baseGlobal.ths
      baseGlobal.db).2 = true := by
    unfold detect_anomalies_body statFailEnv
    simp [isErr]
  have h2 : isErr (checkLoop [critAnomaly]) = true := by
    unfold checkLoop critAnomaly
    simp [isErr]
  exact ⟨⟨h1,
    (pipeline_catches_all_errors.1 statFailEnv 168 "P" [] baseGlobal h1).1,
    (pipeline_catches_all_errors.1 statFailEnv 168 "P" [] baseGlobal h1).2⟩,
   ⟨h2, pipeline_catches_all_errors.2 168 "P" [critAnomaly] emptyDB h2⟩⟩

/-- A no-failure run of the `detect_anomalies` body always succeeds and
commits exactly the detected anomaly records. -/
theorem detect_anomalies_body_ok (now : ℚ) (pid : String)
    (vitals : List (String × Option ℚ)) (ths : ThMap) (db : DB) :
    ∃ ths1 db1 anoms,
      detect_anomalies_body okEnv now pid vitals ths db = (ths1, .ok (db1, anoms)) ∧
      db1.anomalies = db.anomalies ++ anoms := by
  simp only [detect_anomalies_body, okEnv]
  norm_num
  split
  · rename_i he
    have h2 := List.isEmpty_iff.mp he
    rw [List.map_append] at h2
    rcases List.append_eq_nil.mp h2 with ⟨hx, hy⟩
    exact ⟨_, _, _, rfl, by rw [hx, hy]; simp⟩
  · exact ⟨_, _, _, rfl, rfl⟩

/-- C8: an INFO-severity anomaly never creates or extends an alert — for an
all-INFO anomaly list the loop completes without exception, creates no
`AlertRecord`, dispatches no notification and leaves the database unchanged
— while `detect_anomalies` (in a run where no external operation raises)
persists every detected `AnomalyRecord` unconditionally, appending exactly
its returned list to the committed anomalies table. -/
theorem info_anomalies_create_no_alerts :
    (∀ (now : ℚ) (pid : String) (anomalies : List AnomalyRec) (db : DB),
      (∀ a ∈ anomalies, a.severity = SeverityLevel.INFO) →
        checkLoop anomalies = .ok [] ∧
        check_and_create_alerts now pid anomalies db = (db, [], [])) ∧
    (∀ (now : ℚ) (pid : String) (vitals : List (String × Option ℚ)) (g : Global),
      (detect_anomalies okEnv now pid vitals g).1.db.anomalies =
        g.db.anomalies ++ (detect_anomalies okEnv now pid vitals g).2) := by
  constructor
  · intro now pid anomalies db hinfo
    have hloop : checkLoop anomalies = .ok [] := by
      induction anomalies with
      | nil => rfl
      | cons a rest ih =>
        have ha : a.severity = SeverityLevel.INFO := hinfo a (List.mem_cons_self a rest)
        unfold checkLoop
        rw [if_neg (by rw [ha]; rintro (h | h) <;> exact SeverityLevel.noConfusion h)]
        exact ih (fun b hb => hinfo b (List.mem_cons_of_mem a hb))
    refine ⟨hloop, ?_⟩
    unfold check_and_create_alerts
    rw [hloop]
    rfl
  · intro now pid vitals g
    obtain ⟨ths1, db1, anoms, hbody, hdb⟩ :=
      detect_anomalies_body_ok now pid vitals g.ths g.db
    unfold detect_anomalies
    rw [hbody]
    simpa using hdb

/-- An INFO anomaly for the C8 witness. -/
noncomputable def infoAnomaly : AnomalyRec :=
  ⟨"P", 168, "heart_rate", ((1:ℚ) : ℝ) / 7, .INFO, "d", "r"⟩

theorem info_anomalies_create_no_alerts_witness :
    (∀ a ∈ [infoAnomaly], a.severity = SeverityLevel.INFO) ∧
    check_and_create_alerts 168 "P" [infoAnomaly] emptyDB = (emptyDB, [], []) :=
  ⟨by intro a ha
      rw [List.mem_singleton.mp ha]
      rfl,
   (info_anomalies_create_no_alerts.1 168 "P" [infoAnomaly] emptyDB
     (by intro a ha
         rw [List.mem_singleton.mp ha]
         rfl)).2⟩

/-- C9: `send_alert_notification` never touches the alerts table (it only
reads patients/configs), so a notification failure cannot roll back or
remove the `AlertRecord`; the returned alert agrees with the input on every
field except possibly `is_sent`, whose final value is the old value or-ed
with `deliveryConfirmed` — i.e. a fresh alert's `sent` flag becomes true
exactly when the console step succeeded, the email path raised nothing, the
patient exists and a non-empty notification email is configured; the
function returns `False` exactly when the console step raised. -/
theorem notification_failure_preserves_alert (db : DB) (env : NotifyEnv)
    (alert : AlertRec) :
    ((send_alert_notification db env alert).2.patient_id = alert.patient_id ∧
     (send_alert_notification db env alert).2.alert_type = alert.alert_type ∧
     (send_alert_notification db env alert).2.severity = alert.severity ∧
     (send_alert_notification db env alert).2.message = alert.message ∧
     (send_alert_notification db env alert).2.timestamp = alert.timestamp) ∧
    (send_alert_notification db env alert).2.is_sent =
      (alert.is_sent || deliveryConfirmed db env alert) ∧
    (send_alert_notification db env alert).1 = !env.consoleRaises := by
  unfold send_alert_notification send_email_notification deliveryConfirmed
  cases hc : env.consoleRaises with
  | true => simp
  | false =>
    cases he : env.emailRaises with
    | true => simp
    | false =>
      simp only [Bool.false_eq_true, if_false, Bool.not_false, Bool.true_and]
      cases hp : db.patients.find? (fun p => p.patient_id == alert.patient_id) with
      | none => simp [hp]
      | some p =>
        simp only [hp, Option.isSome_some, Bool.true_and]
        cases hcf : db.configs.find? (fun c =>
            c.patient_id == alert.patient_id && c.metric_name == alert.alert_type) with
        | none => simp
        | some c =>
          cases hne : c.notification_email with
          | none => simp [hne]
          | some e =>
            by_cases hee : e = ""
            · simp [hne, hee]
            · simp [hne, hee]

/-- A sample with two threshold violations (heart_rate 180 > 120 and
spo2 80 < 90). -/
def vitals2 : List (String × Option ℚ) := [("heart_rate", some 180), ("spo2", some 80)]

theorem vitals2_two_candidates :
    detect_threshold_anomalies defaultThresholds vitals2 =
      [mkThresholdAnomaly "heart_rate" 180 ⟨50, 120⟩,
       mkThresholdAnomaly "spo2" 80 ⟨90, 100⟩] := by
  rw [detect_threshold_anomalies_eq_filterMap]
  norm_num [vitals2, thresholdCandidate, lookupTh, defaultThresholds, List.filterMap_cons]
  rfl

theorem addfail_body_eval :
    detect_anomalies_body (addFailEnv 0) 168 "P" vitals2 baseGlobal.ths baseGlobal.db =
      (defaultThresholds, .error .dbError) := by
  simp only [detect_anomalies_body, addFailEnv, baseGlobal, emptyDB,
    detect_statistical_anomalies, historyWindow]
  norm_num [vitals2_two_candidates]

/-- C3 counterexample: with two candidate threshold anomalies in one sample
and a persistence failure on the *first* `db.add`, the call persists
*neither* anomaly (the single try/except + one commit makes the call
all-or-nothing) and returns `[]` — the sibling anomaly is blocked,
contradicting the claimed partial success. -/
theorem persistence_failure_blocks_sibling_anomalies :
    (detect_threshold_anomalies defaultThresholds vitals2).length = 2 ∧
    (detect_anomalies (addFailEnv 0) 168 "P" vitals2 baseGlobal).1.db.anomalies = [] ∧
    (detect_anomalies (addFailEnv 0) 168 "P" vitals2 baseGlobal).2 = [] := by
  refine ⟨by rw [vitals2_two_candidates]; rfl, ?_, ?_⟩ <;>
    · unfold detect_anomalies
      rw [addfail_body_eval]
      try rfl

/-- C3 amended: within one `detect_anomalies` call a persistence failure on
any single anomaly aborts the entire call — the session is rolled back, no
anomaly of the sample (sibling or otherwise) is persisted and the empty
list is returned — and a detector-level exception in the statistical stage
likewise suppresses the whole call including the already-computed threshold
anomalies: total failure, not partial success. -/
theorem detect_anomalies_failure_is_total (now : ℚ) (pid : String)
    (vitals : List (String × Option ℚ)) (g : Global) (i : ℕ)
    (hadd : isErr (detect_anomalies_body (addFailEnv i) now pid vitals
      g.ths g.db).2 = true) :
    ((detect_anomalies (addFailEnv i) now pid vitals g).1.db.anomalies =
        g.db.anomalies ∧
      (detect_anomalies (addFailEnv i) now pid vitals g).2 = []) ∧
    ((detect_anomalies statFailEnv now pid vitals g).1.db.anomalies =
        g.db.anomalies ∧
      (detect_anomalies statFailEnv now pid vitals g).2 = []) := by
  constructor
  · unfold detect_anomalies
    rcases hb : detect_anomalies_body (addFailEnv i) now pid vitals g.ths g.db
      with ⟨ths1, r⟩
    cases r with
    | ok v => rw [hb] at hadd; simp [isErr] at hadd
    | error e => exact ⟨rfl, rfl⟩
  · unfold detect_anomalies
    have herr : isErr (detect_anomalies_body statFailEnv now pid vitals
        g.ths g.db).2 = true := by
      simp [detect_anomalies_body, statFailEnv, isErr]
    rcases hb : detect_anomalies_body statFailEnv now pid vitals g.ths g.db
      with ⟨ths1, r⟩
    cases r with
    | ok v => rw [hb] at herr; simp [isErr] at herr
    | error e => exact ⟨rfl, rfl⟩

theorem detect_anomalies_failure_is_total_witness :
    isErr (detect_anomalies_body (addFailEnv 0) 168 "P" vitals2
        baseGlobal.ths baseGlobal.db).2 = true ∧
    (detect_anomalies (addFailEnv 0) 168 "P" vitals2 baseGlobal).1.db.anomalies =
      baseGlobal.db.anomalies ∧
    (detect_anomalies (addFailEnv 0) 168 "P" vitals2 baseGlobal).2 = [] :=
  ⟨by rw [addfail_body_eval]; rfl,
   (detect_anomalies_failure_is_total 168 "P" vitals2 baseGlobal 0
     (by rw [addfail_body_eval]; rfl)).1.1,
   (detect_anomalies_failure_is_total 168 "P" vitals2 baseGlobal 0
     (by rw [addfail_body_eval]; rfl)).1.2⟩

/-- Patient A's active override narrowing spo2 to `{min: 94, max: 100}`. -/
def spo2Config : ConfigRec := ⟨"A", "spo2", some 94, none, true, none⟩

/-- Database containing only patient A's override. -/
def dbA : DB := ⟨[], [], [], [], [spo2Config]⟩

/-- Initial global state: pristine default thresholds plus `dbA`. -/
def gA : Global := ⟨defaultThresholds, dbA⟩

/-- The threshold dict after `detect_anomalies` has applied patient A's
override in place: the process-wide spo2 entry now reads `{94, 100}`. -/
def mutatedThs : ThMap :=
  [("heart_rate", ⟨50, 120⟩),
   ("spo2", ⟨94, 100⟩),
   ("glucose", ⟨70, 200⟩),
   ("blood_pressure_systolic", ⟨90, 140⟩),
   ("blood_pressure_diastolic", ⟨60, 90⟩),
   ("temperature", ⟨97, 199/2⟩)]

theorem runA_body_eval :
    detect_anomalies_body okEnv 168 "A" [] gA.ths gA.db =
      (mutatedThs, .ok (dbA, [])) := rfl

theorem runA_eval :
    detect_anomalies okEnv 168 "A" [] gA = (⟨mutatedThs, dbA⟩, []) := by
  unfold detect_anomalies
  rw [runA_body_eval]

theorem runB_body_eval :
    detect_anomalies_body okEnv 168 "B" [("spo2", some 93)] mutatedThs dbA =
      (mutatedThs,
       .ok ({ dbA with anomalies :=
                dbA.anomalies ++ [mkAnomalyRec "B" 168 (mkThresholdAnomaly "spo2" 93 ⟨94, 100⟩)] },
            [mkAnomalyRec "B" 168 (mkThresholdAnomaly "spo2" 93 ⟨94, 100⟩)])) := rfl

/-- C2 (code bug): `detect_anomalies` loads patient A's override by mutating
the process-wide `anomaly_detector.thresholds` in place and never restores
it.  After A's detection call the shared spo2 entry is `{94, 100}` instead
of the default `{90, 100}`, and a later call for patient B — who has no
overrides — evaluates B's spo2 of 93 against the leaked `{94, 100}` range
and flags it, although 93 lies inside the default range. -/
theorem override_mutation_leaks_to_other_patient :
    lookupTh (detect_anomalies okEnv 168 "A" [] gA).1.ths "spo2" = some ⟨94, 100⟩ ∧
    ((detect_anomalies okEnv 168 "B" [("spo2", some 93)]
        (detect_anomalies okEnv 168 "A" [] gA).1).2.map fun a => a.anomaly_type) =
      ["spo2"] := by
  rw [runA_eval]
  constructor
  · rfl
  · show ((detect_anomalies okEnv 168 "B" [("spo2", some 93)]
        ⟨mutatedThs, dbA⟩).2.map fun a => a.anomaly_type) = ["spo2"]
    unfold detect_anomalies
    rw [show (⟨mutatedThs, dbA⟩ : Global).ths = mutatedThs from rfl,
        show (⟨mutatedThs, dbA⟩ : Global).db = dbA from rfl]
    rw [runB_body_eval]
    rfl
